import Mathlib

/-!
Verification development for the streetlight points / citizen-report service
(`src/main.py`).  The Python module is shallowly embedded: JSON-borne numbers
become `ℚ` (only order comparisons occur), Python `None`-able values become
`Option`, raised exceptions become `Except`, and the process-global
`geojson_data` becomes an explicit `Option FeatureCollection` argument.
-/

/-- A single quote character, used to build Python exception messages. -/
def quo : String := String.singleton (Char.ofNat 39)

/-! ## Geospatial data model (GeoJSON features as consumed by `get_points`) -/

/-- The `geometry` member of a GeoJSON feature as the code reads it:
`feature.get('geometry', {}).get('type')` and `.get('coordinates', [])`,
so both members may be absent (absent `coordinates` reads as `[]`). -/
structure Geometry where
  type : Option String
  coordinates : List ℚ
deriving DecidableEq, Repr

/-- One feature of the loaded GeoJSON.  The `geometry` member may be absent
(`feature.get('geometry', {})` then yields an empty dict).  `properties` is
the opaque payload the service passes through without inspecting. -/
structure Feature where
  geometry : Option Geometry
  properties : List (String × String)
deriving DecidableEq, Repr

/-- The loaded collection: `geojson_data.get('features', [])` in source. -/
structure FeatureCollection where
  features : List Feature
deriving DecidableEq, Repr

/-- The bounding box echoed back by `get_points`. -/
structure BoundingBox where
  north : ℚ
  south : ℚ
  east : ℚ
  west : ℚ
deriving DecidableEq, Repr

/-- The three distinct response shapes of `get_points`:
`bare` is the featureless-store reply (a dict holding only the type tag and an
empty `features` list — no `count`, no `bounding_box`); `error` is the
`\x7b"error": msg\x7d` payload; `ok` is the full filtered reply with `features`,
`count` and the echoed `bounding_box`. -/
inductive PointsResult where
  | bare : PointsResult
  | error (msg : String) : PointsResult
  | ok (features : List Feature) (count : Nat) (bounding_box : BoundingBox) : PointsResult
deriving DecidableEq, Repr

/-- The per-feature test of the loop body of `get_points` (src/main.py lines
201–209): geometry type must equal `"Point"`, the coordinate list must have at
least two entries, and then `south <= lat <= north and west <= lon <= east`
with `lon, lat = coordinates[0], coordinates[1]`. -/
def featureMatches (south north west east : ℚ) (f : Feature) : Bool :=
  let geom := f.geometry.getD ⟨Option.none, []⟩
  if geom.type == some "Point" then
    let coordinates := geom.coordinates
    if 2 ≤ coordinates.length then
      let lon := coordinates.getD 0 0
      let lat := coordinates.getD 1 0
      (decide (south ≤ lat) && decide (lat ≤ north)) &&
        (decide (west ≤ lon) && decide (lon ≤ east))
    else false
  else false

/-- `get_points` (src/main.py lines 169–221).  `state` is the module-global
`geojson_data`: `Option.none` models the pre-startup `None` (falsy, so
`if not geojson_data` fires); `some gj` models a loaded dict.  Bounds are
validated only after the falsy check, then the features are filtered in
order. -/
def get_points (state : Option FeatureCollection) (north south east west : ℚ) :
    PointsResult :=
  match state with
  | Option.none => PointsResult.bare
  | some gj =>
    if north < south then
      PointsResult.error "South latitude must be less than north latitude"
    else if east < west then
      PointsResult.error "West longitude must be less than east longitude"
    else
      let filtered_features := gj.features.filter (featureMatches south north west east)
      PointsResult.ok filtered_features filtered_features.length
        ⟨north, south, east, west⟩

/-! ## Store lifecycle and health endpoint -/

/-- The possible outcomes of opening and parsing the dataset file at startup. -/
inductive LoadSource where
  | ok (data : FeatureCollection) : LoadSource
  | fileNotFound : LoadSource
  | jsonDecodeError : LoadSource
deriving DecidableEq, Repr

/-- `load_geojson_data` (src/main.py lines 49–61): on `FileNotFoundError` or
`json.JSONDecodeError` the store is set to the empty FeatureCollection instead
of the process failing; the result is never `None`. -/
def load_geojson_data (src : LoadSource) : Option FeatureCollection :=
  match src with
  | LoadSource.ok data => some data
  | LoadSource.fileNotFound => some ⟨[]⟩
  | LoadSource.jsonDecodeError => some ⟨[]⟩

/-- The reply of `/api/health` (src/main.py lines 131–137). -/
structure HealthResponse where
  status : String
  features_loaded : Nat
  gpt_configured : Bool
deriving DecidableEq, Repr

/-- `health_check` (src/main.py lines 131–137): feature count is `0` when the
store is unset (falsy), else the length of its `features` list;
`gpt_configured` is `GITHUB_TOKEN is not None`. -/
def health_check (state : Option FeatureCollection) (token : Option String) :
    HealthResponse :=
  ⟨"healthy",
   (match state with
    | some gj => gj.features.length
    | Option.none => 0),
   token.isSome⟩

/-! ## Chat pipeline (`query_gpt4` / `chat_with_bot`) -/

/-- A Python value as produced by `json.loads`, restricted to the shapes that
can reach the chat pipeline. -/
inductive PyValue where
  | str (s : String) : PyValue
  | int (n : Int) : PyValue
  | list (xs : List PyValue) : PyValue
  | obj (fields : List (String × PyValue)) : PyValue
  | pyNone : PyValue

/-- Python type names, as they appear in `AttributeError` messages. -/
def PyValue.typeName : PyValue → String
  | PyValue.str _ => "str"
  | PyValue.int _ => "int"
  | PyValue.list _ => "list"
  | PyValue.obj _ => "dict"
  | PyValue.pyNone => "NoneType"

/-- `dict.get(key)` on an object value: the value under the first matching
key, `Option.none` when the key is absent. -/
def pyLookup (fields : List (String × PyValue)) (key : String) : Option PyValue :=
  (fields.find? (fun p => p.1 == key)).map Prod.snd

/-- The exceptions the chat pipeline can raise.  `HTTPException.__str__`
renders as `"status: detail"` (FastAPI/Starlette); `AttributeError` and
pydantic validation errors carry their own message. -/
inductive PyExc where
  | httpException (status : Nat) (detail : String) : PyExc
  | attributeError (message : String) : PyExc
  | validationError (message : String) : PyExc
deriving DecidableEq, Repr

/-- `str(e)` for the modelled exceptions. -/
def PyExc.msg : PyExc → String
  | PyExc.httpException status detail => toString status ++ ": " ++ detail
  | PyExc.attributeError m => m
  | PyExc.validationError m => m

/-- Outcome of `json.loads(ai_response)`: either it succeeds with a value or
raises `JSONDecodeError`; `raw` is always the verbatim provider text. -/
inductive ParseOutcome where
  | parsed (raw : String) (value : PyValue) : ParseOutcome
  | unparseable (raw : String) : ParseOutcome

/-- Outcome of the external `client.complete` call: the provider either
returns a reply (with its JSON-parse outcome) or the call raises, `m` being
`str(e)` of the transport/auth/provider exception. -/
inductive ProviderOutcome where
  | success (parse : ParseOutcome) : ProviderOutcome
  | failure (m : String) : ProviderOutcome

/-- Python truthiness test `not GITHUB_TOKEN`: `None` or the empty string. -/
def tokenFalsy (token : Option String) : Bool :=
  match token with
  | Option.none => true
  | some s => s.isEmpty

/-- The normalization half of `query_gpt4` (src/main.py lines 102–114): a
successfully parsed JSON value is returned as-is; an unparseable reply is
wrapped in the fallback dict with the raw text, `query_type` "chat", the first
three caller-supplied files, a fixed description, and no search terms. -/
def query_gpt4_normalize (parse : ParseOutcome) (available_files : List String) :
    PyValue :=
  match parse with
  | ParseOutcome.parsed _ v => v
  | ParseOutcome.unparseable raw =>
    PyValue.obj
      [("query_type", PyValue.str "chat"),
       ("response", PyValue.str raw),
       ("files_to_query",
        PyValue.list ((if available_files.isEmpty then []
                       else available_files.take 3).map PyValue.str)),
       ("response_description", PyValue.str "Chat response from citizen report bot"),
       ("search_terms", PyValue.list [])]

/-- `query_gpt4` (src/main.py lines 63–117).  The second component of the
result records whether the external provider was actually called.  A falsy
token raises `HTTPException(500, "GITHUB_TOKEN not configured")` before the
client is built; the enclosing `except Exception` catches it (HTTPException
subclasses Exception) and every other failure, re-raising with the
`"Error querying GPT-4 API: "` prefix around `str(e)`. -/
def query_gpt4 (token : Option String) (available_files : List String)
    (outcome : ProviderOutcome) : Except PyExc PyValue × Bool :=
  if tokenFalsy token then
    (Except.error (PyExc.httpException 500
      ("Error querying GPT-4 API: " ++
        (PyExc.httpException 500 "GITHUB_TOKEN not configured").msg)), false)
  else
    match outcome with
    | ProviderOutcome.failure m =>
      (Except.error (PyExc.httpException 500 ("Error querying GPT-4 API: " ++ m)), true)
    | ProviderOutcome.success parse =>
      (Except.ok (query_gpt4_normalize parse available_files), true)

/-- The caller-visible chat reply (`ChatResponse` pydantic model,
src/main.py lines 42–47); every field is total, hence always populated. -/
structure ChatResponse where
  response : String
  query_type : String
  files_to_query : List String
  response_description : String
  search_terms : List String
deriving DecidableEq, Repr

/-- pydantic validation of a `str` field: only a Python `str` is accepted. -/
def PyValue.asStr? : PyValue → Option String
  | PyValue.str s => some s
  | _ => Option.none

/-- pydantic validation of each element of a `List[str]` field. -/
def strList? : List PyValue → Option (List String)
  | [] => some []
  | v :: vs =>
    match v.asStr?, strList? vs with
    | some s, some ss => some (s :: ss)
    | _, _ => Option.none

/-- pydantic validation of a `List[str]` field: a Python `list` of `str`. -/
def PyValue.asStrList? : PyValue → Option (List String)
  | PyValue.list xs => strList? xs
  | _ => Option.none

/-- The value passed for the `response` field:
`gpt_response.get("response", gpt_response.get("content", "Sorry, ..."))`. -/
def respField (fields : List (String × PyValue)) : PyValue :=
  match pyLookup fields "response" with
  | some v => v
  | Option.none =>
    match pyLookup fields "content" with
    | some v => v
    | Option.none =>
      PyValue.str ("Sorry, I couldn" ++ quo ++ "t process your request.")

/-- The response-formatting step of `chat_with_bot` (src/main.py lines
158–164): five `gpt_response.get(...)` reads followed by `ChatResponse`
construction.  `.get` on a non-dict raises `AttributeError`; a present field
of the wrong type fails pydantic validation. -/
def chat_with_bot_format (gpt : PyValue) : Except PyExc ChatResponse :=
  match gpt with
  | PyValue.obj fields =>
    match (respField fields).asStr?,
        ((pyLookup fields "query_type").getD (PyValue.str "chat")).asStr?,
        ((pyLookup fields "files_to_query").getD (PyValue.list [])).asStrList?,
        ((pyLookup fields "response_description").getD (PyValue.str "")).asStr?,
        ((pyLookup fields "search_terms").getD (PyValue.list [])).asStrList? with
    | some r, some q, some fls, some d, some ts =>
      Except.ok ⟨r, q, fls, d, ts⟩
    | _, _, _, _, _ =>
      Except.error (PyExc.validationError "validation error for ChatResponse")
  | v =>
    Except.error (PyExc.attributeError
      (quo ++ v.typeName ++ quo ++ " object has no attribute " ++ quo ++ "get" ++ quo))

/-- `chat_with_bot` (src/main.py lines 139–167): hard-coded available files,
call to `query_gpt4`, response formatting; any exception is caught and
re-raised as `HTTPException(500, "Error in chat processing: " + str(e))`.
The Bool component again records whether the provider was called. -/
def chat_with_bot (token : Option String) (outcome : ProviderOutcome) :
    Except PyExc ChatResponse × Bool :=
  let available_files :=
    ["streetlight_data.json", "road_reports.json", "maintenance_logs.json"]
  match query_gpt4 token available_files outcome with
  | (Except.error e, called) =>
    (Except.error (PyExc.httpException 500 ("Error in chat processing: " ++ e.msg)),
     called)
  | (Except.ok gpt, called) =>
    match chat_with_bot_format gpt with
    | Except.error e =>
      (Except.error (PyExc.httpException 500 ("Error in chat processing: " ++ e.msg)),
       called)
    | Except.ok r => (Except.ok r, called)

/-- A possibly-absent dict field is a string when present. -/
def optStrOk (o : Option PyValue) : Bool :=
  match o with
  | some v => v.asStr?.isSome
  | Option.none => true

/-- A possibly-absent dict field is a list of strings when present. -/
def optStrListOk (o : Option PyValue) : Bool :=
  match o with
  | some v => v.asStrList?.isSome
  | Option.none => true

/-- The `response` slot type-checks: `response` is a string when present,
otherwise `content` (the fallback read) is a string when present. -/
def respFieldOk (fields : List (String × PyValue)) : Bool :=
  match pyLookup fields "response" with
  | some v => v.asStr?.isSome
  | Option.none => optStrOk (pyLookup fields "content")

/-- Shape check on a parsed provider reply under which `chat_with_bot`
formatting cannot raise: the value is a dict and each field the formatter
consults has the pydantic-expected type when present (`content` is consulted
only when `response` is absent). -/
def wellShapedValue : PyValue → Bool
  | PyValue.obj fields =>
    respFieldOk fields &&
    optStrOk (pyLookup fields "query_type") &&
    optStrListOk (pyLookup fields "files_to_query") &&
    optStrOk (pyLookup fields "response_description") &&
    optStrListOk (pyLookup fields "search_terms")
  | _ => false

/-- A provider reply that is either unparseable (fallback path) or parses to
a well-shaped dict. -/
def wellShapedOutcome : ParseOutcome → Bool
  | ParseOutcome.unparseable _ => true
  | ParseOutcome.parsed _ v => wellShapedValue v

/-! ## Readable accessors for stating the filter's selection rule -/

/-- The geometry dict the filter reads, `feature.get('geometry', {})`. -/
def featureGeometry (f : Feature) : Geometry := f.geometry.getD ⟨Option.none, []⟩

/-- `coordinates[0]`, the longitude the filter compares. -/
def featureLon (f : Feature) : ℚ := (featureGeometry f).coordinates.getD 0 0

/-- `coordinates[1]`, the latitude the filter compares. -/
def featureLat (f : Feature) : ℚ := (featureGeometry f).coordinates.getD 1 0

/-! ## Lemmas about the bounding-box filter -/

lemma featureMatches_iff (south north west east : ℚ) (f : Feature) :
    featureMatches south north west east f = true ↔
      ((featureGeometry f).type = some "Point" ∧
       2 ≤ (featureGeometry f).coordinates.length ∧
       (south ≤ featureLat f ∧ featureLat f ≤ north) ∧
       (west ≤ featureLon f ∧ featureLon f ≤ east)) := by
  simp only [featureMatches, featureGeometry, featureLat, featureLon,
    Bool.and_eq_true, decide_eq_true_eq]
  split
  case isTrue h1 =>
    rw [beq_iff_eq] at h1
    split
    case isTrue h2 => simp [h1, h2, and_assoc]
    case isFalse h2 => simp [h1, h2]
  case isFalse h1 =>
    rw [beq_iff_eq] at h1
    simp [h1]

lemma get_points_valid (gj : FeatureCollection) (north south east west : ℚ)
    (hs : south ≤ north) (hw : west ≤ east) :
    get_points (some gj) north south east west =
      PointsResult.ok (gj.features.filter (featureMatches south north west east))
        (gj.features.filter (featureMatches south north west east)).length
        ⟨north, south, east, west⟩ := by
  simp [get_points, not_lt.mpr hs, not_lt.mpr hw]

/-! ## Claim theorems: bounding-box filter -/

/-- C1: for every feature in the store and every bounding box with
south ≤ north and west ≤ east, `get_points` includes the feature in its
output iff its geometry type is exactly "Point", its coordinates array has at
least two values, and south ≤ latitude ≤ north and west ≤ longitude ≤ east,
all four bounds inclusive; features with other geometry types or fewer than
two coordinates are silently excluded, not an error. -/
theorem bbox_filter_inclusion (gj : FeatureCollection) (north south east west : ℚ)
    (f : Feature) (hs : south ≤ north) (hw : west ≤ east) (hf : f ∈ gj.features) :
    get_points (some gj) north south east west =
      PointsResult.ok (gj.features.filter (featureMatches south north west east))
        (gj.features.filter (featureMatches south north west east)).length
        ⟨north, south, east, west⟩ ∧
    (f ∈ gj.features.filter (featureMatches south north west east) ↔
      ((featureGeometry f).type = some "Point" ∧
       2 ≤ (featureGeometry f).coordinates.length ∧
       (south ≤ featureLat f ∧ featureLat f ≤ north) ∧
       (west ≤ featureLon f ∧ featureLon f ≤ east))) := by
  refine ⟨get_points_valid gj north south east west hs hw, ?_⟩
  rw [List.mem_filter, featureMatches_iff]
  simp [hf]

/-- C1 witness: the spec's Bengaluru-area example, one Point feature at
[77.59, 12.97] and box north 13, south 12, east 78, west 77. -/
theorem bbox_filter_inclusion_witness :
    get_points (some ⟨[⟨some ⟨some "Point", [(77.59 : ℚ), 12.97]⟩, []⟩]⟩) 13 12 78 77 =
      PointsResult.ok
        (FeatureCollection.features ⟨[⟨some ⟨some "Point", [(77.59 : ℚ), 12.97]⟩, []⟩]⟩
          |>.filter (featureMatches 12 13 77 78))
        (FeatureCollection.features ⟨[⟨some ⟨some "Point", [(77.59 : ℚ), 12.97]⟩, []⟩]⟩
          |>.filter (featureMatches 12 13 77 78)).length
        ⟨13, 12, 78, 77⟩ ∧
    ((⟨some ⟨some "Point", [(77.59 : ℚ), 12.97]⟩, []⟩ : Feature) ∈
        (FeatureCollection.features ⟨[⟨some ⟨some "Point", [(77.59 : ℚ), 12.97]⟩, []⟩]⟩
          |>.filter (featureMatches 12 13 77 78)) ↔
      ((featureGeometry ⟨some ⟨some "Point", [(77.59 : ℚ), 12.97]⟩, []⟩).type = some "Point" ∧
       2 ≤ (featureGeometry ⟨some ⟨some "Point", [(77.59 : ℚ), 12.97]⟩, []⟩).coordinates.length ∧
       ((12 : ℚ) ≤ featureLat ⟨some ⟨some "Point", [(77.59 : ℚ), 12.97]⟩, []⟩ ∧
        featureLat ⟨some ⟨some "Point", [(77.59 : ℚ), 12.97]⟩, []⟩ ≤ 13) ∧
       ((77 : ℚ) ≤ featureLon ⟨some ⟨some "Point", [(77.59 : ℚ), 12.97]⟩, []⟩ ∧
        featureLon ⟨some ⟨some "Point", [(77.59 : ℚ), 12.97]⟩, []⟩ ≤ 78))) :=
  bbox_filter_inclusion ⟨[⟨some ⟨some "Point", [(77.59 : ℚ), 12.97]⟩, []⟩]⟩ 13 12 78 77
    ⟨some ⟨some "Point", [(77.59 : ℚ), 12.97]⟩, []⟩
    (by norm_num) (by norm_num) (by simp)

/-- C2: for every loaded collection and valid bounding box, the output
feature list is an ordered subsequence of the input (original relative order
preserved), the returned count equals its length, and the queried bounding
box is echoed back unchanged. -/
theorem bbox_filter_order_count_echo (gj : FeatureCollection)
    (north south east west : ℚ) (hs : south ≤ north) (hw : west ≤ east) :
    get_points (some gj) north south east west =
      PointsResult.ok (gj.features.filter (featureMatches south north west east))
        (gj.features.filter (featureMatches south north west east)).length
        ⟨north, south, east, west⟩ ∧
    (gj.features.filter (featureMatches south north west east)).Sublist gj.features :=
  ⟨get_points_valid gj north south east west hs hw, List.filter_sublist _⟩

/-- C2 witness: a two-feature store (one match, one short-coordinate
feature) with a concrete valid box. -/
theorem bbox_filter_order_count_echo_witness :
    get_points (some ⟨[⟨some ⟨some "Point", [(1 : ℚ), 2]⟩, []⟩,
        ⟨some ⟨some "Point", [(1 : ℚ)]⟩, []⟩]⟩) 5 0 5 0 =
      PointsResult.ok
        (FeatureCollection.features ⟨[⟨some ⟨some "Point", [(1 : ℚ), 2]⟩, []⟩,
            ⟨some ⟨some "Point", [(1 : ℚ)]⟩, []⟩]⟩ |>.filter (featureMatches 0 5 0 5))
        (FeatureCollection.features ⟨[⟨some ⟨some "Point", [(1 : ℚ), 2]⟩, []⟩,
            ⟨some ⟨some "Point", [(1 : ℚ)]⟩, []⟩]⟩ |>.filter (featureMatches 0 5 0 5)).length
        ⟨5, 0, 5, 0⟩ ∧
    (FeatureCollection.features ⟨[⟨some ⟨some "Point", [(1 : ℚ), 2]⟩, []⟩,
        ⟨some ⟨some "Point", [(1 : ℚ)]⟩, []⟩]⟩ |>.filter (featureMatches 0 5 0 5)).Sublist
      (FeatureCollection.features ⟨[⟨some ⟨some "Point", [(1 : ℚ), 2]⟩, []⟩,
        ⟨some ⟨some "Point", [(1 : ℚ)]⟩, []⟩]⟩) :=
  bbox_filter_order_count_echo
    ⟨[⟨some ⟨some "Point", [(1 : ℚ), 2]⟩, []⟩, ⟨some ⟨some "Point", [(1 : ℚ)]⟩, []⟩]⟩
    5 0 5 0 (by norm_num) (by norm_num)

/-- C3: for every loaded store and every bounding box with south > north or
west > east, `get_points` returns one of the two documented invalid-bounds
error payloads, never an `ok` (empty or partial) result, regardless of the
dataset contents. -/
theorem invalid_bounds_error (gj : FeatureCollection) (north south east west : ℚ)
    (h : north < south ∨ east < west) :
    get_points (some gj) north south east west =
      PointsResult.error "South latitude must be less than north latitude" ∨
    get_points (some gj) north south east west =
      PointsResult.error "West longitude must be less than east longitude" := by
  by_cases h1 : north < south
  · exact Or.inl (by simp [get_points, h1])
  · have h2 : east < west := h.resolve_left h1
    exact Or.inr (by simp [get_points, h1, h2])

/-- C3 witness: the spec's example south=10, north=5 on an empty store. -/
theorem invalid_bounds_error_witness :
    get_points (some ⟨[]⟩) 5 10 20 0 =
      PointsResult.error "South latitude must be less than north latitude" ∨
    get_points (some ⟨[]⟩) 5 10 20 0 =
      PointsResult.error "West longitude must be less than east longitude" :=
  invalid_bounds_error ⟨[]⟩ 5 10 20 0 (Or.inl (by norm_num))

/-- C9: when the dataset file is missing or malformed at load time, the load
substitutes the empty FeatureCollection, the health endpoint reports zero
features loaded, and a points query with any valid bounding box answers with
count 0, not an error. -/
theorem degraded_load_empty_store (src : LoadSource) (token : Option String)
    (north south east west : ℚ)
    (hsrc : src = LoadSource.fileNotFound ∨ src = LoadSource.jsonDecodeError)
    (hs : south ≤ north) (hw : west ≤ east) :
    load_geojson_data src = some ⟨[]⟩ ∧
    (health_check (load_geojson_data src) token).features_loaded = 0 ∧
    get_points (load_geojson_data src) north south east west =
      PointsResult.ok [] 0 ⟨north, south, east, west⟩ := by
  have hload : load_geojson_data src = some ⟨[]⟩ := by
    rcases hsrc with h | h <;> simp [h, load_geojson_data]
  refine ⟨hload, ?_, ?_⟩
  · rw [hload]; rfl
  · rw [hload, get_points_valid ⟨[]⟩ north south east west hs hw]; rfl

/-- C9 witness: a missing file, an unset token, and the unit box. -/
theorem degraded_load_empty_store_witness :
    load_geojson_data LoadSource.fileNotFound = some ⟨[]⟩ ∧
    (health_check (load_geojson_data LoadSource.fileNotFound) Option.none).features_loaded = 0 ∧
    get_points (load_geojson_data LoadSource.fileNotFound) 1 0 1 0 =
      PointsResult.ok [] 0 ⟨1, 0, 1, 0⟩ :=
  degraded_load_empty_store LoadSource.fileNotFound Option.none 1 0 1 0
    (Or.inl rfl) (by norm_num) (by norm_num)

/-- C10: when the store snapshot is unset (`None`, as before a load has
occurred), `get_points` returns the bare empty FeatureCollection payload (no
count, no bounding-box echo) for every bounding box, including boxes with
south > north or west > east — the bounds validation is bypassed. -/
theorem unset_store_bare_collection (north south east west : ℚ) :
    get_points Option.none north south east west = PointsResult.bare := rfl

/-! ## Lemmas about the chat pipeline -/

lemma strList?_map (l : List String) : strList? (l.map PyValue.str) = some l := by
  induction l with
  | nil => rfl
  | cons h t ih => simp [strList?, PyValue.asStr?, ih]

lemma strList?_take_map (n : Nat) (l : List String) :
    strList? (List.take n (l.map PyValue.str)) = some (l.take n) := by
  rw [← List.map_take, strList?_map]

lemma respField_ok (fields : List (String × PyValue)) (h : respFieldOk fields = true) :
    ∃ s, (respField fields).asStr? = some s := by
  unfold respFieldOk at h
  unfold respField
  cases hr : pyLookup fields "response" with
  | some v => rw [hr] at h; exact Option.isSome_iff_exists.mp h
  | none =>
    rw [hr] at h
    cases hc : pyLookup fields "content" with
    | some v =>
      rw [hc] at h
      simp only [optStrOk] at h
      exact Option.isSome_iff_exists.mp h
    | none => exact ⟨_, rfl⟩

lemma optStrOk_getD (o : Option PyValue) (d : PyValue) (hd : ∃ s, d.asStr? = some s)
    (h : optStrOk o = true) : ∃ s, (o.getD d).asStr? = some s := by
  cases o with
  | none => simpa using hd
  | some v =>
    simp only [optStrOk] at h
    simpa [Option.isSome_iff_exists] using h

lemma optStrListOk_getD (o : Option PyValue) (d : PyValue)
    (hd : ∃ l, d.asStrList? = some l) (h : optStrListOk o = true) :
    ∃ l, (o.getD d).asStrList? = some l := by
  cases o with
  | none => simpa using hd
  | some v =>
    simp only [optStrListOk] at h
    simpa [Option.isSome_iff_exists] using h

lemma wellShaped_format_ok (v : PyValue) (h : wellShapedValue v = true) :
    ∃ r : ChatResponse, chat_with_bot_format v = Except.ok r := by
  match v with
  | PyValue.str s => simp [wellShapedValue] at h
  | PyValue.int n => simp [wellShapedValue] at h
  | PyValue.list xs => simp [wellShapedValue] at h
  | PyValue.pyNone => simp [wellShapedValue] at h
  | PyValue.obj fields =>
    simp only [wellShapedValue, Bool.and_eq_true] at h
    obtain ⟨⟨⟨⟨h1, h2⟩, h3⟩, h4⟩, h5⟩ := h
    obtain ⟨r, hr⟩ := respField_ok fields h1
    obtain ⟨q, hq⟩ := optStrOk_getD _ (PyValue.str "chat") ⟨"chat", rfl⟩ h2
    obtain ⟨fls, hfls⟩ := optStrListOk_getD _ (PyValue.list []) ⟨[], rfl⟩ h3
    obtain ⟨d, hd⟩ := optStrOk_getD _ (PyValue.str "") ⟨"", rfl⟩ h4
    obtain ⟨ts, hts⟩ := optStrListOk_getD _ (PyValue.list []) ⟨[], rfl⟩ h5
    refine ⟨⟨r, q, fls, d, ts⟩, ?_⟩
    simp only [chat_with_bot_format]
    rw [hr, hq, hfls, hd, hts]

lemma chat_format_fallback (raw : String) (files : List String) :
    query_gpt4_normalize (ParseOutcome.unparseable raw) files =
      PyValue.obj
        [("query_type", PyValue.str "chat"),
         ("response", PyValue.str raw),
         ("files_to_query", PyValue.list ((files.take 3).map PyValue.str)),
         ("response_description", PyValue.str "Chat response from citizen report bot"),
         ("search_terms", PyValue.list [])] ∧
    chat_with_bot_format (query_gpt4_normalize (ParseOutcome.unparseable raw) files) =
      Except.ok ⟨raw, "chat", files.take 3,
        "Chat response from citizen report bot", []⟩ := by
  have h1 : query_gpt4_normalize (ParseOutcome.unparseable raw) files =
      PyValue.obj
        [("query_type", PyValue.str "chat"),
         ("response", PyValue.str raw),
         ("files_to_query", PyValue.list ((files.take 3).map PyValue.str)),
         ("response_description", PyValue.str "Chat response from citizen report bot"),
         ("search_terms", PyValue.list [])] := by
    cases files <;> simp [query_gpt4_normalize]
  refine ⟨h1, ?_⟩
  rw [h1]
  simp [chat_with_bot_format, respField, pyLookup, List.find?,
    PyValue.asStr?, PyValue.asStrList?, strList?_map, strList?_take_map, strList?]

/-! ## Claim theorems: chat pipeline -/

/-- C4: a provider reply that is valid structured JSON matching the
NormalizedChatResult shape is returned unmodified — every field of the
caller-visible ChatResponse equals the corresponding field of the parsed
JSON object. -/
theorem structured_reply_roundtrip (token : Option String) (raw : String)
    (fields : List (String × PyValue)) (r q d : String) (fls ts : List String)
    (htok : tokenFalsy token = false)
    (hr : pyLookup fields "response" = some (PyValue.str r))
    (hq : pyLookup fields "query_type" = some (PyValue.str q))
    (hf : pyLookup fields "files_to_query" = some (PyValue.list (fls.map PyValue.str)))
    (hd : pyLookup fields "response_description" = some (PyValue.str d))
    (ht : pyLookup fields "search_terms" = some (PyValue.list (ts.map PyValue.str))) :
    (chat_with_bot token (ProviderOutcome.success
        (ParseOutcome.parsed raw (PyValue.obj fields)))).1 =
      Except.ok ⟨r, q, fls, d, ts⟩ := by
  simp [chat_with_bot, query_gpt4, htok, query_gpt4_normalize,
    chat_with_bot_format, respField, hr, hq, hf, hd, ht,
    PyValue.asStr?, PyValue.asStrList?, strList?_map]

/-- C4 witness: a concrete structured reply with all five fields. -/
theorem structured_reply_roundtrip_witness :
    (chat_with_bot (some "tok") (ProviderOutcome.success (ParseOutcome.parsed "j"
        (PyValue.obj
          [("response", PyValue.str "hi"),
           ("query_type", PyValue.str "data_query"),
           ("files_to_query", PyValue.list [PyValue.str "a.json"]),
           ("response_description", PyValue.str "found it"),
           ("search_terms", PyValue.list [PyValue.str "noise"])])))).1 =
      Except.ok ⟨"hi", "data_query", ["a.json"], "found it", ["noise"]⟩ :=
  structured_reply_roundtrip (some "tok") "j"
    [("response", PyValue.str "hi"),
     ("query_type", PyValue.str "data_query"),
     ("files_to_query", PyValue.list [PyValue.str "a.json"]),
     ("response_description", PyValue.str "found it"),
     ("search_terms", PyValue.list [PyValue.str "noise"])]
    "hi" "data_query" "found it" ["a.json"] ["noise"]
    rfl rfl rfl rfl rfl rfl

/-- C5: an unparseable provider reply is wrapped into the fallback dict:
`response` is the raw reply verbatim, `query_type` is "chat",
`files_to_query` is the first three caller-supplied candidate files (empty
when none are supplied), `response_description` is the fixed label, and
`search_terms` is empty; the formatted caller-visible reply carries exactly
those values. -/
theorem fallback_normalization (raw : String) (available_files : List String) :
    query_gpt4_normalize (ParseOutcome.unparseable raw) available_files =
      PyValue.obj
        [("query_type", PyValue.str "chat"),
         ("response", PyValue.str raw),
         ("files_to_query", PyValue.list ((available_files.take 3).map PyValue.str)),
         ("response_description", PyValue.str "Chat response from citizen report bot"),
         ("search_terms", PyValue.list [])] ∧
    chat_with_bot_format (query_gpt4_normalize (ParseOutcome.unparseable raw) available_files) =
      Except.ok ⟨raw, "chat", available_files.take 3,
        "Chat response from citizen report bot", []⟩ :=
  chat_format_fallback raw available_files

/-- C6 counterexample: the provider reply "[1, 2]" is valid JSON but not an
object; the successful external call then ends in an HTTP 500 processing
error (the `.get` AttributeError), not a NormalizedChatResult — refuting the
claim that every successful call yields a well-formed result for any shape
of reply. -/
theorem chat_nonobject_reply_error :
    (chat_with_bot (some "token") (ProviderOutcome.success
        (ParseOutcome.parsed "[1, 2]" (PyValue.list [PyValue.int 1, PyValue.int 2])))).1 =
      Except.error (PyExc.httpException 500
        ("Error in chat processing: " ++ quo ++ "list" ++ quo ++
          " object has no attribute " ++ quo ++ "get" ++ quo)) := rfl

/-- C6 (amended): for every successful external call whose reply either
fails JSON parsing or parses to a JSON object whose consulted fields have
the expected types when present, the chat endpoint yields a well-formed
ChatResponse. -/
theorem chat_wellformed_normalization (token : Option String) (parse : ParseOutcome)
    (htok : tokenFalsy token = false) (hshape : wellShapedOutcome parse = true) :
    ∃ r : ChatResponse,
      (chat_with_bot token (ProviderOutcome.success parse)).1 = Except.ok r := by
  cases parse with
  | unparseable raw =>
    refine ⟨⟨raw, "chat",
      ["streetlight_data.json", "road_reports.json", "maintenance_logs.json"].take 3,
      "Chat response from citizen report bot", []⟩, ?_⟩
    have h2 := (chat_format_fallback raw
      ["streetlight_data.json", "road_reports.json", "maintenance_logs.json"]).2
    simp only [chat_with_bot, query_gpt4, htok, Bool.false_eq_true, if_false]
    rw [h2]
  | parsed raw v =>
    obtain ⟨r, hfmt⟩ := wellShaped_format_ok v (by simpa [wellShapedOutcome] using hshape)
    refine ⟨r, ?_⟩
    simp only [chat_with_bot, query_gpt4, htok, Bool.false_eq_true, if_false,
      query_gpt4_normalize]
    rw [hfmt]

/-- C6 witness for the amended theorem: a configured token and a minimal
well-shaped object reply. -/
theorem chat_wellformed_normalization_witness :
    wellShapedOutcome (ParseOutcome.parsed "x" (PyValue.obj [("response", PyValue.str "ok")])) = true ∧
    ∃ r : ChatResponse,
      (chat_with_bot (some "tok") (ProviderOutcome.success
          (ParseOutcome.parsed "x" (PyValue.obj [("response", PyValue.str "ok")])))).1 =
        Except.ok r :=
  ⟨rfl, chat_wellformed_normalization (some "tok")
    (ParseOutcome.parsed "x" (PyValue.obj [("response", PyValue.str "ok")])) rfl rfl⟩

/-- C7: when the credential is absent (`GITHUB_TOKEN` unset), every chat
request fails with the configuration error raised before any external
provider call is attempted — the `false` component records that no request
was sent to the provider, for every would-be provider outcome. -/
theorem missing_token_config_error (outcome : ProviderOutcome) :
    chat_with_bot Option.none outcome =
      (Except.error (PyExc.httpException 500
        "Error in chat processing: 500: Error querying GPT-4 API: 500: GITHUB_TOKEN not configured"),
       false) := rfl

/-- C8: every transport/auth/provider-side failure of the external call
surfaces as a single HTTP 500 error whose detail carries the upstream
failure message verbatim; the provider was called exactly once (`true`) and
the failure is not masked by a fallback result. -/
theorem provider_failure_surfaced (token : Option String) (m : String)
    (htok : tokenFalsy token = false) :
    chat_with_bot token (ProviderOutcome.failure m) =
      (Except.error (PyExc.httpException 500
        ("Error in chat processing: 500: Error querying GPT-4 API: " ++ m)), true) := by
  simp only [chat_with_bot, query_gpt4, htok, Bool.false_eq_true, if_false, PyExc.msg]
  rw [← String.append_assoc, ← String.append_assoc]
  rfl

/-- C8 witness: a configured token and a concrete upstream failure. -/
theorem provider_failure_surfaced_witness :
    chat_with_bot (some "tok") (ProviderOutcome.failure "connection refused") =
      (Except.error (PyExc.httpException 500
        "Error in chat processing: 500: Error querying GPT-4 API: connection refused"),
       true) :=
  provider_failure_surfaced (some "tok") "connection refused" rfl
